import Mathlib

/-!
Shallow embedding of `src/SpSnippet.js`, a browser-side SharePoint CRUD
facade.  Network transport is modelled by passing the response that the
SOAP helper layer delivers to each function's `completefunc` as an
explicit argument; the functions themselves are translated directly from
the source.
-/

namespace SpSnippet

/-- One `z:row` XML response node, modelled as its attribute list
(attribute name, e.g. `ows_ID`, paired with its string value).
`attr` models jQuery `.attr`: the first binding, `none` when absent. -/
abbrev Row := List (String × String)

def attr (r : Row) (name : String) : Option String :=
  (r.find? (fun p => p.1 == name)).map (fun p => p.2)

/-- A parsed list item as built in lines 102-109 of the source: one
entry per requested field, holding the `ows_`-prefixed attribute of the
row (absent attributes give `none`, JS `undefined`). -/
abbrev ListItem := List (String × Option String)

def parseRow (fields : List String) (r : Row) : ListItem :=
  fields.map (fun f => (f, attr r ("ows_" ++ f)))

def parseRows (fields : List String) (rows : List Row) : List ListItem :=
  rows.map (parseRow fields)

/-- The data handed by SPServices to a `completefunc`: the transport
status string (`"success"` on success) and the response XML, reduced to
the parts the source reads: the `z:row` nodes and, for `deleteFile`,
the texts of the `ErrorCode` nodes in document order. -/
structure SPResponse where
  status : String
  rows : List Row
  errorCodes : List String := []
deriving DecidableEq

/-- Possible synchronous return values of `getListItems`
(lines 115-122): a boolean, a bare item, or a collection. -/
inductive SPGetResult where
  | bool (b : Bool)
  | item (it : ListItem)
  | coll (items : List ListItem)
deriving DecidableEq

/-- The read request built by `getListItems` (lines 83-99).  The CAML
query argument is run through JS truthiness — `query ? query :
"<Query></Query>"` — so an absent *or empty* string is replaced by the
default.  `ViewFields` is accumulated with `+=` over the field list. -/
structure GetListItemsRequest where
  operation : String
  listName : String
  camlViewFields : String
  camlQuery : String
deriving DecidableEq

def buildViewFields (fields : List String) : String :=
  "<ViewFields>" ++
    fields.foldl (fun acc f => acc ++ "<FieldRef Name='" ++ f ++ "'/>") ""
    ++ "</ViewFields>"

def getListItemsRequest (lName : String) (fields : List String)
    (query : Option String) : GetListItemsRequest :=
  { operation := "GetListItems"
    listName := lName
    camlViewFields := buildViewFields fields
    camlQuery :=
      match query with
      | some q => if q = "" then "<Query></Query>" else q
      | none => "<Query></Query>" }

/-- Rows parsed inside `completefunc` (lines 100-109): rows are parsed
only when the transport status is `"success"`; otherwise `listItems`
keeps its initial value `[]`. -/
def getListItemsParsed (fields : List String) (resp : SPResponse) :
    List ListItem :=
  if resp.status = "success" then parseRows fields resp.rows else []

/-- The return statement of `getListItems` (lines 115-122): the
collection when more than one item was parsed, the single item
(`listItems[0]`) when exactly one, and the boolean `false` otherwise. -/
def syncReturn (listItems : List ListItem) : SPGetResult :=
  if listItems.length > 1 then .coll listItems
  else if listItems.length = 1 then .item (listItems.headD [])
  else .bool false

/-- Synchronous `getListItems` (no callback): `completefunc` runs
before the return statement, so the returned value is computed from the
parsed rows. -/
def getListItemsSync (fields : List String) (resp : SPResponse) :
    SPGetResult :=
  syncReturn (getListItemsParsed fields resp)

/-- The callback invocations made by `getListItems` when a callback is
supplied (lines 100-113): each list element is the argument of one
invocation.  The callback fires once, with the full parsed collection,
inside the `Status == "success"` guard; on any other status it never
fires. -/
def getListItemsCallbackCalls (fields : List String) (resp : SPResponse) :
    List (List ListItem) :=
  if resp.status = "success" then [parseRows fields resp.rows] else []

/-- `getExternalListItems` (lines 372-405): same parsing loop, but the
function always returns `listItems` itself (line 404), never a boolean
or a bare item. -/
def getExternalListItemsSync (fields : List String) (resp : SPResponse) :
    List ListItem :=
  if resp.status = "success" then parseRows fields resp.rows else []

/-- `deleteFile`'s `completefunc` (lines 347-363): `response` starts
`false` and each `ErrorCode` node in turn overwrites it with the test
against the canonical no-error code, so the last node wins; the
transport `Status` argument is never read. -/
def deleteFileResult (resp : SPResponse) : Bool :=
  resp.errorCodes.foldl (fun _ code => code == "0x00000000") false

/-- JS numeric coercion of a string, as far as SharePoint row
identifiers need it: an optional sign followed by decimal digits.
Non-numeric strings coerce to NaN, for which `>= 0` is `false`, so they
are mapped to `none` here. -/
def decDigits (cs : List Char) (acc : Nat) : Option Nat :=
  match cs with
  | [] => some acc
  | c :: rest =>
      if c.isDigit then decDigits rest (acc * 10 + (c.toNat - 48)) else none

def jsToNumber (s : String) : Option Int :=
  match s.toList with
  | [] => none
  | '-' :: cs =>
      match cs with
      | [] => none
      | _ => (decDigits cs 0).map (fun n => -(n : Int))
  | cs => (decDigits cs 0).map (fun n => (n : Int))

/-- The JS comparison `newId >= 0` where `newId` is
`$(...).SPFilterNode("z:row").attr("ows_ID")`: `undefined` (no row, or
a row without the attribute) and NaN compare `false`. -/
def jsGeZero (v : Option String) : Bool :=
  match v.bind jsToNumber with
  | some n => decide (0 ≤ n)
  | none => false

/-- `attr` applied to the jQuery set of `z:row` nodes reads the first
node; an empty set gives `undefined`. -/
def firstRowAttr (rows : List Row) (name : String) : Option String :=
  match rows with
  | [] => none
  | r :: _ => attr r name

/-- The numeric row identifier of the response, when present. -/
def responseId (resp : SPResponse) : Option Int :=
  (firstRowAttr resp.rows "ows_ID").bind jsToNumber

/-- `createNewListItem`'s `completefunc` (lines 155-162):
`Status == "success" && newId >= 0`. -/
def createNewListItemResult (resp : SPResponse) : Bool :=
  resp.status == "success" && jsGeZero (firstRowAttr resp.rows "ows_ID")

/-- `updateListItem`'s `completefunc` (lines 190-197): textually the
same predicate as `createNewListItem`'s. -/
def updateListItemResult (resp : SPResponse) : Bool :=
  resp.status == "success" && jsGeZero (firstRowAttr resp.rows "ows_ID")

/-- The `valuepairs` array built by `createNewListItem` (lines
144-147): `fields.forEach` pushes `[fields[index], values[index]]`, so
there is one pair per *field*; an index past the end of `values` reads
JS `undefined`, modelled as `none`.  No length validation happens. -/
def createValuePairs (fields values : List String) :
    List (String × Option String) :=
  fields.enum.map (fun p => (p.2, values.get? p.1))

/-- JS string conversion of a possibly-undefined value, as it happens
when `values[index]` is concatenated into the update batch XML. -/
def jsStr (v : Option String) : String :=
  match v with
  | some s => s
  | none => "undefined"

/-- The `<Field .../>` elements accumulated by `updateListItem` (lines
180-182), one per field, in order. -/
def updateFieldElems (fields values : List String) : List String :=
  fields.enum.map
    (fun p => "<Field Name='" ++ p.2 ++ "'>" ++ jsStr (values.get? p.1)
      ++ "</Field>")

def updateFieldValuesXml (fields values : List String) : String :=
  String.join (updateFieldElems fields values)

/-- The `;base64,` marker searched by `uploadFile` (line 285); it has
8 characters, hence the `+8`. -/
def b64Marker : List Char := [';', 'b', 'a', 's', 'e', '6', '4', ',']

/-- JS `String.prototype.indexOf` restricted to what the source needs:
index of the first occurrence of `pat`, `none` standing for `-1`. -/
def idxOf (pat : List Char) : List Char → Option Nat
  | [] => if pat.isPrefixOf ([] : List Char) then some 0 else none
  | c :: rest =>
      if pat.isPrefixOf (c :: rest) then some 0
      else (idxOf pat rest).map (fun n => n + 1)

/-- Lines 284-286 of `uploadFile`: `n = data.indexOf(';base64,') + 8;
data = data.substring(n)`.  When the marker is absent `indexOf` is
`-1`, so 7 characters are dropped. -/
def stripBase64Head (data : List Char) : List Char :=
  match idxOf b64Marker data with
  | some n => data.drop (n + 8)
  | none => data.drop 7

/-- The `CopyIntoItems` SOAP request assembled by `uploadFile` (lines
287-301), reduced to its variable parts. -/
structure CopyIntoItemsRequest where
  sourceUrl : String
  destinationUrl : String
  fieldInformation : String
  stream : List Char
deriving DecidableEq

def buildFieldInformation
    (fields : List (String × String × String × String)) : String :=
  fields.foldl
    (fun acc f =>
      acc ++ "<FieldInformation Type='" ++ f.1 ++ "' DisplayName='"
        ++ f.2.1 ++ "' InternalName='" ++ f.2.2.1 ++ "' Value='"
        ++ f.2.2.2 ++ "'/>")
    ""

/-- The request built by the `FileReader.onload` handler of
`uploadFile`, given the data URL the reader produced (`readResult`). -/
def uploadFileRequest (path urlSite lName filename : String)
    (fields : List (String × String × String × String))
    (readResult : List Char) : CopyIntoItemsRequest :=
  { sourceUrl := path
    destinationUrl := urlSite ++ "/" ++ lName ++ "/" ++ filename
    fieldInformation := buildFieldInformation fields
    stream := stripBase64Head readResult }

/-- The response of the user-directory service, reduced to what
`getCurrentUser` reads (lines 484-485): the first `User` element, when
one exists, with its optional `ID` and `Name` attributes. -/
structure UserResponse where
  user : Option (Option String × Option String)
deriving DecidableEq

/-- `getCurrentUser` (lines 469-491): the jQuery `complete` handler
always runs; `find("User").attr(...)` is `undefined` when no `User`
element exists, and the function returns the pair `[idUser, name]`
unconditionally. -/
def getCurrentUser (resp : UserResponse) : Option String × Option String :=
  match resp.user with
  | some u => (u.1, u.2)
  | none => (none, none)

/-! ## Helper lemmas -/

/-- A fold that overwrites its accumulator keeps only the last element's
contribution. -/
lemma foldl_overwrite {α β : Type} (f : α → β) (init : β) (cs : List α)
    (c : α) :
    (cs ++ [c]).foldl (fun _ a => f a) init = f c := by
  simp [List.foldl_append]

/-- When `idxOf` finds `pat` at index `n`, the list splits there. -/
lemma idxOf_eq_some (pat : List Char) :
    ∀ (l : List Char) (n : Nat), idxOf pat l = some n →
      ∃ pre rest, l = pre ++ pat ++ rest ∧ pre.length = n := by
  intro l
  induction l with
  | nil =>
      intro n h
      simp only [idxOf] at h
      split at h
      · next hp =>
          cases pat with
          | nil =>
              refine ⟨[], [], by simp, ?_⟩
              simp at h
              simp [h]
          | cons a as => simp [List.isPrefixOf] at hp
      · simp at h
  | cons c rest ih =>
      intro n h
      simp only [idxOf] at h
      split at h
      · next hp =>
          obtain ⟨t, ht⟩ := List.isPrefixOf_iff_prefix.mp hp
          refine ⟨[], t, by simp [ht], ?_⟩
          simp at h
          simp [h]
      · cases hi : idxOf pat rest with
        | none => rw [hi] at h; simp at h
        | some m =>
            rw [hi] at h
            simp at h
            obtain ⟨pre, rest', hsplit, hlen⟩ := ih m hi
            refine ⟨c :: pre, rest', by simp [hsplit], ?_⟩
            simp [hlen, h]

/-! ## Claim theorems -/

/-- C1: a synchronous `getListItems` call (no callback) with transport
status `"success"` returns the boolean `false` when zero rows are
parsed (the §8 asymmetry: not an empty collection), the single parsed
`ListItem` itself (not a one-element collection) when exactly one row
is parsed, and the full collection when more than one row is parsed. -/
theorem getListItems_sync_cases (fields : List String) (resp : SPResponse)
    (hs : resp.status = "success") :
    (resp.rows = [] → getListItemsSync fields resp = SPGetResult.bool false) ∧
    (∀ r, resp.rows = [r] →
      getListItemsSync fields resp = SPGetResult.item (parseRow fields r)) ∧
    (1 < resp.rows.length →
      getListItemsSync fields resp
        = SPGetResult.coll (parseRows fields resp.rows)) := by
  refine ⟨?_, ?_, ?_⟩
  · intro h0
    simp [getListItemsSync, getListItemsParsed, syncReturn, hs, h0, parseRows]
  · intro r h1
    simp [getListItemsSync, getListItemsParsed, syncReturn, hs, h1, parseRows]
  · intro hlt
    have hlen : 1 < (parseRows fields resp.rows).length := by
      simpa [parseRows] using hlt
    simp [getListItemsSync, getListItemsParsed, syncReturn, hs, hlen]

/-- C1 witness: concrete zero-row and one-row synchronous calls. -/
theorem getListItems_sync_cases_app :
    getListItemsSync ["ID"] ⟨"success", [], []⟩ = SPGetResult.bool false ∧
    getListItemsSync ["ID"] ⟨"success", [[("ows_ID", "1")]], []⟩
      = SPGetResult.item (parseRow ["ID"] [("ows_ID", "1")]) :=
  ⟨(getListItems_sync_cases ["ID"] ⟨"success", [], []⟩ rfl).1 rfl,
   (getListItems_sync_cases ["ID"] ⟨"success", [[("ows_ID", "1")]], []⟩
      rfl).2.1 _ rfl⟩

/-- C2: `deleteFile` answers `true` exactly when the embedded
`ErrorCode` equals the canonical no-error code `0x00000000`; any other
embedded code gives `false`, a response with no `ErrorCode` node (as a
transport-level failure produces) gives `false`, and the transport
status is never consulted. -/
theorem deleteFile_error_code_predicate (resp : SPResponse) :
    (∀ c, resp.errorCodes = [c] →
      (deleteFileResult resp = true ↔ c = "0x00000000")) ∧
    (resp.errorCodes = [] → deleteFileResult resp = false) ∧
    (∀ s, deleteFileResult ⟨s, resp.rows, resp.errorCodes⟩
      = deleteFileResult resp) := by
  refine ⟨?_, ?_, ?_⟩
  · intro c hc
    simp [deleteFileResult, hc]
  · intro hc
    simp [deleteFileResult, hc]
  · intro s
    rfl

/-- C2 witness: a good code, a bad code, and an empty response. -/
theorem deleteFile_error_code_predicate_app :
    deleteFileResult ⟨"success", [], ["0x00000000"]⟩ = true ∧
    deleteFileResult ⟨"success", [], ["0x81020015"]⟩ = false ∧
    deleteFileResult ⟨"error", [], []⟩ = false := by
  refine ⟨?_, ?_, ?_⟩
  · exact ((deleteFile_error_code_predicate
      ⟨"success", [], ["0x00000000"]⟩).1 "0x00000000" rfl).mpr rfl
  · have h := (deleteFile_error_code_predicate
      ⟨"success", [], ["0x81020015"]⟩).1 "0x81020015" rfl
    cases hb : deleteFileResult ⟨"success", [], ["0x81020015"]⟩ with
    | false => rfl
    | true => exact absurd (h.mp hb) (by decide)
  · exact (deleteFile_error_code_predicate ⟨"error", [], []⟩).2.1 rfl

/-- C10: with no `ErrorCode` node `deleteFile` returns `false`
whatever the transport status; with several nodes the result is decided
solely by the last node's text. -/
theorem deleteFile_last_error_code (resp : SPResponse) :
    (∀ s, deleteFileResult ⟨s, resp.rows, []⟩ = false) ∧
    (∀ cs c, resp.errorCodes = cs ++ [c] →
      deleteFileResult resp = (c == "0x00000000")) := by
  constructor
  · intro s
    rfl
  · intro cs c hc
    unfold deleteFileResult
    rw [hc]
    exact foldl_overwrite (fun code => code == "0x00000000") false cs c

/-- C10 witness: a final no-error code wins over an earlier failure
code, and vice versa. -/
theorem deleteFile_last_error_code_app :
    deleteFileResult ⟨"error", [], ["0x81020015", "0x00000000"]⟩ = true ∧
    deleteFileResult ⟨"success", [], ["0x00000000", "0x81020015"]⟩ = false := by
  constructor
  · have h := (deleteFile_last_error_code
      ⟨"error", [], ["0x81020015", "0x00000000"]⟩).2 ["0x81020015"]
      "0x00000000" rfl
    simpa using h
  · have h := (deleteFile_last_error_code
      ⟨"success", [], ["0x00000000", "0x81020015"]⟩).2 ["0x00000000"]
      "0x81020015" rfl
    simpa using h

/-- C3: `createNewListItem` succeeds exactly when the transport status
is `"success"` and the response carries a non-negative row identifier;
a non-success status, an absent row, and an absent or negative
identifier all give `false`; `updateListItem` computes the very same
predicate. -/
theorem create_update_success_predicate (resp : SPResponse) :
    (createNewListItemResult resp = true ↔
      resp.status = "success" ∧
        ∃ n : Int, responseId resp = some n ∧ 0 ≤ n) ∧
    updateListItemResult resp = createNewListItemResult resp := by
  constructor
  · cases hv : (firstRowAttr resp.rows "ows_ID").bind jsToNumber with
    | none =>
        simp [createNewListItemResult, jsGeZero, responseId, hv]
    | some n =>
        simp [createNewListItemResult, jsGeZero, responseId, hv]
  · rfl

/-- C3 witness: success with identifier 5 is `true`; an absent row and
a non-success status are `false`; update agrees. -/
theorem create_update_success_predicate_app :
    createNewListItemResult ⟨"success", [[("ows_ID", "5")]], []⟩ = true ∧
    createNewListItemResult ⟨"success", [], []⟩ = false ∧
    createNewListItemResult ⟨"error", [[("ows_ID", "5")]], []⟩ = false ∧
    updateListItemResult ⟨"success", [[("ows_ID", "5")]], []⟩ = true := by
  have h1 := (create_update_success_predicate
    ⟨"success", [[("ows_ID", "5")]], []⟩).1.mpr ⟨rfl, 5, by decide, by decide⟩
  refine ⟨h1, ?_, ?_, ?_⟩
  · cases hb : createNewListItemResult ⟨"success", [], []⟩ with
    | false => rfl
    | true =>
        have h := (create_update_success_predicate ⟨"success", [], []⟩).1.mp hb
        obtain ⟨-, n, hn, -⟩ := h
        exact absurd hn (by simp [responseId, firstRowAttr])
  · cases hb : createNewListItemResult ⟨"error", [[("ows_ID", "5")]], []⟩ with
    | false => rfl
    | true =>
        have h := (create_update_success_predicate
          ⟨"error", [[("ows_ID", "5")]], []⟩).1.mp hb
        exact absurd h.1 (by decide)
  · rw [(create_update_success_predicate
      ⟨"success", [[("ows_ID", "5")]], []⟩).2]
    exact h1

/-- C4: with a callback supplied, `getListItems` invokes it exactly
once on transport success, after parsing, with the full parsed
collection — empty when zero rows matched, and every parsed item keyed
exactly by the requested field names — and never invokes it on any
other transport status. -/
theorem getListItems_callback_spec (fields : List String)
    (resp : SPResponse) :
    (resp.status = "success" →
      getListItemsCallbackCalls fields resp = [parseRows fields resp.rows] ∧
      (parseRows fields resp.rows).length = resp.rows.length ∧
      ∀ it ∈ parseRows fields resp.rows, it.map Prod.fst = fields) ∧
    (resp.status ≠ "success" →
      getListItemsCallbackCalls fields resp = []) := by
  constructor
  · intro hs
    refine ⟨by simp [getListItemsCallbackCalls, hs],
            by simp [parseRows], ?_⟩
    intro it hit
    simp only [parseRows, List.mem_map] at hit
    obtain ⟨r, -, rfl⟩ := hit
    show (fields.map (fun f => (f, attr r ("ows_" ++ f)))).map Prod.fst
      = fields
    rw [List.map_map]
    exact List.map_id fields
  · intro hs
    simp [getListItemsCallbackCalls, hs]

/-- C4 witness: one invocation with the singleton collection on
success; no invocation on transport error. -/
theorem getListItems_callback_spec_app :
    getListItemsCallbackCalls ["ID"] ⟨"success", [[("ows_ID", "1")]], []⟩
      = [parseRows ["ID"] [[("ows_ID", "1")]]] ∧
    getListItemsCallbackCalls ["ID"] ⟨"error", [[("ows_ID", "1")]], []⟩
      = [] :=
  ⟨((getListItems_callback_spec ["ID"]
      ⟨"success", [[("ows_ID", "1")]], []⟩).1 rfl).1,
   (getListItems_callback_spec ["ID"]
      ⟨"error", [[("ows_ID", "1")]], []⟩).2 (by decide)⟩

/-- C5: `createNewListItem` and `updateListItem` never validate the
array lengths: one pair (or one `<Field>` element) is marshalled per
*field*, pairing `fields[i]` with `values[i]`, which is JS `undefined`
past the end of `values`; the marshalling is total and an ordinary
boolean is still produced.  Under the equal-length precondition every
value lookup is in bounds. -/
theorem create_update_no_length_check (fields values : List String) :
    (createValuePairs fields values).length = fields.length ∧
    (∀ i, (createValuePairs fields values)[i]? =
      fields[i]?.map (fun f => (f, values.get? i))) ∧
    (∀ i, (updateFieldElems fields values)[i]? =
      fields[i]?.map (fun f =>
        "<Field Name='" ++ f ++ "'>" ++ jsStr (values.get? i)
          ++ "</Field>")) ∧
    (∀ i, values.length ≤ i → values.get? i = none) ∧
    (fields.length = values.length →
      ∀ i, i < fields.length → (values.get? i).isSome = true) := by
  refine ⟨by simp [createValuePairs], ?_, ?_, ?_, ?_⟩
  · intro i
    cases h : fields[i]? <;>
      simp [createValuePairs, List.getElem?_map, List.getElem?_enum, h]
  · intro i
    cases h : fields[i]? <;>
      simp [updateFieldElems, List.getElem?_map, List.getElem?_enum, h]
  · intro i hi
    exact List.get?_eq_none.mpr hi
  · intro hlen i hi
    rw [List.get?_eq_get (hlen ▸ hi)]
    rfl

/-- C5 witness: two fields against one value — the second pair gets an
undefined value and the update batch renders it as `undefined`; with
equal lengths the lookup is in bounds. -/
theorem create_update_no_length_check_app :
    (createValuePairs ["a", "b"] ["x"])[1]? = some ("b", none) ∧
    (updateFieldElems ["a", "b"] ["x"])[1]?
      = some "<Field Name='b'>undefined</Field>" ∧
    (["x"] : List String).get? 1 = none ∧
    ((["x"] : List String).get? 0).isSome = true := by
  have h := create_update_no_length_check ["a", "b"] ["x"]
  refine ⟨?_, ?_, h.2.2.2.1 1 (by decide), ?_⟩
  · rw [h.2.1 1]; rfl
  · rw [h.2.2.1 1]; rfl
  · exact (create_update_no_length_check ["x"] ["x"]).2.2.2.2 rfl 0 (by decide)

/-- C6 counterexample: an explicitly supplied *empty* filter string is
NOT forwarded unmodified — `query ? query : "<Query></Query>"` treats
the empty string as falsy, so the default replaces it. -/
theorem getListItems_query_empty_replaced :
    (getListItemsRequest "Employees" ["ID"] (some "")).camlQuery
      = "<Query></Query>" ∧
    (getListItemsRequest "Employees" ["ID"] (some "")).camlQuery ≠ "" := by
  exact ⟨rfl, by decide⟩

/-- C6 amended: every *non-empty* supplied query string is passed
through unmodified to the read request; an absent query and an
explicitly supplied empty string are both replaced by the default
`<Query></Query>`. -/
theorem getListItems_query_passthrough (lName : String)
    (fields : List String) (q : String) (hq : q ≠ "") :
    (getListItemsRequest lName fields (some q)).camlQuery = q ∧
    (getListItemsRequest lName fields none).camlQuery = "<Query></Query>" ∧
    (getListItemsRequest lName fields (some "")).camlQuery
      = "<Query></Query>" := by
  refine ⟨?_, rfl, rfl⟩
  simp [getListItemsRequest, hq]

/-- C6 witness: a concrete non-empty CAML query passes through. -/
theorem getListItems_query_passthrough_app :
    (getListItemsRequest "Employees" ["ID"]
      (some "<Query><Where></Where></Query>")).camlQuery
      = "<Query><Where></Where></Query>" :=
  (getListItems_query_passthrough "Employees" ["ID"]
    "<Query><Where></Where></Query>" (by decide)).1

/-- C7: when the read result contains the `;base64,` marker,
`uploadFile` puts exactly the substring following the (first) marker in
the request's `Stream` element, and the destination URL embedded in the
request is `urlSite + "/" + lName + "/" + filename`. -/
theorem uploadFile_stream_and_destination
    (path urlSite lName filename : String)
    (fields : List (String × String × String × String))
    (data : List Char) (n : Nat) (h : idxOf b64Marker data = some n) :
    (∃ pre rest, data = pre ++ b64Marker ++ rest ∧ pre.length = n ∧
      (uploadFileRequest path urlSite lName filename fields data).stream
        = rest) ∧
    (uploadFileRequest path urlSite lName filename fields
        data).destinationUrl
      = urlSite ++ "/" ++ lName ++ "/" ++ filename := by
  refine ⟨?_, rfl⟩
  obtain ⟨pre, rest, hdata, hlen⟩ := idxOf_eq_some b64Marker data n h
  refine ⟨pre, rest, hdata, hlen, ?_⟩
  show stripBase64Head data = rest
  simp only [stripBase64Head, h]
  subst hdata
  subst hlen
  have hl : (pre ++ b64Marker).length = pre.length + 8 := by
    simp [b64Marker]
  rw [← hl, List.drop_left]

/-- C7 witness: a concrete data URL is stripped to its base64 payload
and the destination URL is assembled from the three parts. -/
theorem uploadFile_stream_and_destination_app :
    (uploadFileRequest "C:\\fakepath\\JohnDoe.txt"
        "http://example.us/sites/site" "Docs" "JohnDoe.txt" []
        ("data:text/plain;base64,QUJD".toList)).destinationUrl
      = "http://example.us/sites/site/Docs/JohnDoe.txt" ∧
    (uploadFileRequest "C:\\fakepath\\JohnDoe.txt"
        "http://example.us/sites/site" "Docs" "JohnDoe.txt" []
        ("data:text/plain;base64,QUJD".toList)).stream = "QUJD".toList := by
  have h := uploadFile_stream_and_destination "C:\\fakepath\\JohnDoe.txt"
    "http://example.us/sites/site" "Docs" "JohnDoe.txt" []
    ("data:text/plain;base64,QUJD".toList) 15 (by decide)
  exact ⟨h.2, by decide⟩

/-- C8: `getCurrentUser` always returns a pair; each component is the
corresponding attribute of the `User` element, and when the response
lacks the `User` structure both components are `undefined` — no error
is signaled. -/
theorem getCurrentUser_always_pair (resp : UserResponse) :
    (resp.user = none → getCurrentUser resp = (none, none)) ∧
    (getCurrentUser resp).1 = resp.user.bind (fun u => u.1) ∧
    (getCurrentUser resp).2 = resp.user.bind (fun u => u.2) := by
  obtain ⟨u⟩ := resp
  cases u <;> simp [getCurrentUser]

/-- C8 witness: the structureless response yields the undefined pair. -/
theorem getCurrentUser_always_pair_app :
    getCurrentUser ⟨none⟩ = (none, none) :=
  (getCurrentUser_always_pair ⟨none⟩).1 rfl

/-- C9: `getExternalListItems`, unlike `getListItems`, always returns
the collection itself: the full parsed collection on transport success
(so a *one-element collection* when exactly one row is parsed, and an
empty collection on zero rows), and the empty collection on any other
status — by its return type it can produce neither the boolean `false`
nor a bare item. -/
theorem getExternalListItems_always_collection (fields : List String)
    (resp : SPResponse) :
    (resp.status = "success" →
      getExternalListItemsSync fields resp = parseRows fields resp.rows ∧
      (getExternalListItemsSync fields resp).length = resp.rows.length) ∧
    (resp.status ≠ "success" → getExternalListItemsSync fields resp = []) ∧
    (∀ r, resp.status = "success" → resp.rows = [r] →
      getExternalListItemsSync fields resp = [parseRow fields r]) := by
  refine ⟨?_, ?_, ?_⟩
  · intro hs
    exact ⟨by simp [getExternalListItemsSync, hs],
           by simp [getExternalListItemsSync, hs, parseRows]⟩
  · intro hs
    simp [getExternalListItemsSync, hs]
  · intro r hs hr
    simp [getExternalListItemsSync, hs, hr, parseRows]

/-- C9 witness: one parsed row comes back as a one-element collection
(where the synchronous `getListItems` would return the bare item), and
a transport error gives the empty collection. -/
theorem getExternalListItems_always_collection_app :
    getExternalListItemsSync ["ID"] ⟨"success", [[("ows_ID", "1")]], []⟩
      = [parseRow ["ID"] [("ows_ID", "1")]] ∧
    getExternalListItemsSync ["ID"] ⟨"error", [], []⟩ = [] :=
  ⟨(getExternalListItems_always_collection ["ID"]
      ⟨"success", [[("ows_ID", "1")]], []⟩).2.2 _ rfl rfl,
   (getExternalListItems_always_collection ["ID"]
      ⟨"error", [], []⟩).2.1 (by decide)⟩

end SpSnippet
